import Mathlib

/-!
Verification development for the DevopsFlow front-end Flow Interaction
Controller (src/web/static/js/app.js) and the Conversation Session Manager
(src/web/static/js/components/ChatPopup.js).

JavaScript strings are embedded as `List Char`; JS booleans as `Bool`;
nullable values as `Option`; a fallible network call as `Except`.
Each definition mirrors one function of the source, keeping its name.
-/

namespace DevopsFlow

/-! ### JS string primitives used by the controller -/

/-- Embedding of `sub.isPrefixOf hay` used to build `String.prototype.includes`:
`true` iff `sub` is a leading segment of `hay`. -/
def leadsWith : List Char → List Char → Bool
  | [], _ => true
  | _ :: _, [] => false
  | a :: as, b :: bs => decide (a = b) && leadsWith as bs

/-- Embedding of the JS call `hay.includes(sub)` (substring containment). -/
def includesSub (sub : List Char) : List Char → Bool
  | [] => sub.isEmpty
  | c :: t => leadsWith sub (c :: t) || includesSub sub t

theorem leadsWith_iff (sub hay : List Char) :
    leadsWith sub hay = true ↔ sub <+: hay := by
  induction sub generalizing hay with
  | nil => simp [leadsWith]
  | cons a as ih =>
    cases hay with
    | nil => simp [leadsWith]
    | cons b bs =>
      simp [leadsWith, Bool.and_eq_true, decide_eq_true_iff, ih,
        List.cons_prefix_cons]

theorem includesSub_iff (sub hay : List Char) :
    includesSub sub hay = true ↔ sub <:+: hay := by
  induction hay with
  | nil => simp [includesSub, List.isEmpty_iff, List.infix_nil]
  | cons c t ih =>
    simp [includesSub, List.infix_cons_iff, leadsWith_iff, ih]

/-- Embedding of the JS idiom `s || d` for a string `s` with default `d`
(an empty string is falsy). -/
def jsStrOr (s d : List Char) : List Char := if s = [] then d else s

/-- Embedding of `v || d` where `v` is a possibly-undefined string field
(`undefined` and the empty string are both falsy). -/
def jsFieldOr (v : Option (List Char)) (d : List Char) : List Char :=
  match v with
  | none => d
  | some s => jsStrOr s d

/-! ### Human-in-the-Loop Gate (app.js, `shouldShowApproveReject`) -/

/--
Embedding of `shouldShowApproveReject(stepName)` from app.js:

    return stepName.includes('initial_research') ||
           stepName.includes('per_resource_research') ||
           stepName.includes('project_structure_review') ||
           stepName.includes('image_retrieval_review') ||
           stepName.includes('resource_') && stepName.includes('_research_review');

In JS, `&&` binds tighter than `||`, so the last disjunct is the
conjunction of the two `includes` calls.
-/
def shouldShowApproveReject (stepName : List Char) : Bool :=
  includesSub ("initial_research".toList) stepName ||
  includesSub ("per_resource_research".toList) stepName ||
  includesSub ("project_structure_review".toList) stepName ||
  includesSub ("image_retrieval_review".toList) stepName ||
  (includesSub ("resource_".toList) stepName &&
   includesSub ("_research_review".toList) stepName)

/-- Modelled from the spec: a step name "matches the pattern
`resource_*_research_review`", read as containing an occurrence of
`resource_` followed (after an arbitrary middle part) by `_research_review`. -/
def MatchesResourceReview (name : List Char) : Prop :=
  ∃ pre rest, name = pre ++ "resource_".toList ++ rest ∧
    "_research_review".toList <:+: rest

/-- Executable check equivalent to `MatchesResourceReview`. -/
def matchesResourceReviewB : List Char → Bool
  | [] => false
  | c :: t =>
    (leadsWith ("resource_".toList) (c :: t) &&
     includesSub ("_research_review".toList) ((c :: t).drop 9)) ||
    matchesResourceReviewB t

theorem matchesResourceReviewB_iff (name : List Char) :
    matchesResourceReviewB name = true ↔ MatchesResourceReview name := by
  induction name with
  | nil =>
    simp only [matchesResourceReviewB, MatchesResourceReview]
    constructor
    · intro h; exact absurd h (by decide)
    · rintro ⟨pre, rest, h, -⟩
      exact absurd h.symm (by simp)
  | cons c t ih =>
    simp only [matchesResourceReviewB, Bool.or_eq_true, Bool.and_eq_true]
    constructor
    · rintro (⟨hpre, hinf⟩ | hrec)
      · rcases (leadsWith_iff _ _).1 hpre with ⟨rest, hrest⟩
        refine ⟨[], rest, by simp [hrest.symm], ?_⟩
        have hdrop : (c :: t).drop 9 = rest := by
          have h9 : ("resource_".toList ++ rest).drop 9 = rest := by
            simp
          rw [hrest] at h9
          exact h9
        rw [hdrop] at hinf
        exact (includesSub_iff _ _).1 hinf
      · rcases ih.1 hrec with ⟨pre, rest, heq, hinf⟩
        exact ⟨c :: pre, rest, by simp [heq], hinf⟩
    · rintro ⟨pre, rest, heq, hinf⟩
      cases pre with
      | nil =>
        left
        simp only [List.nil_append] at heq
        constructor
        · exact (leadsWith_iff _ _).2 ⟨rest, heq.symm⟩
        · have hdrop : (c :: t).drop 9 = rest := by
            rw [heq]
            simp
          rw [hdrop]
          exact (includesSub_iff _ _).2 hinf
      | cons p pre' =>
        right
        refine ih.2 ⟨pre', rest, ?_, hinf⟩
        have hcc := heq
        simp only [List.cons_append] at hcc
        exact (List.cons_eq_cons.mp hcc).2

/-! ### Flow Lifecycle State Machine (app.js component state and `checkStatus`)

The Vue component's reactive `data()` fields that the controller logic reads
or writes.  `statusPoller` (a timer handle or `null`) is embedded as the
Boolean `pollerActive`; `stopPolling()` clears the handle, `startPolling()`
sets it.  Presentation-only fields written by `checkStatus`
(`phase`, `iterations`, `lastUpdated`) are not modelled: no claim and no
controller decision reads them. -/

structure AppState where
  status : List Char
  isProcessRunning : Bool
  isWaitingForInput : Bool
  userInputRequiredByBackend : Bool
  waitingStepName : List Char
  userFeedback : List Char
  showApproveReject : Bool
  isLoading : Bool
  justResumed : Bool
  pollerActive : Bool
  interactionMode : List Char
  blackboardEvents : List (List Char)
  deriving DecidableEq

/-- The `data()` defaults of the component (app.js). -/
def initialData : AppState where
  status := []
  isProcessRunning := false
  isWaitingForInput := false
  userInputRequiredByBackend := false
  waitingStepName := []
  userFeedback := []
  showApproveReject := false
  isLoading := false
  justResumed := false
  pollerActive := false
  interactionMode := "assisted".toList
  blackboardEvents := []

/-- The `statusData` JSON body returned by `api.getStatus()`. -/
structure StatusData where
  is_running : Bool
  is_waiting_for_input : Bool
  step_name : Option (List Char)
  statusMsg : Option (List Char)
  deriving DecidableEq

/-- The `interactionData` JSON body returned by `api.getInteractionStatus()`,
restricted to what `checkStatus` reads.  `none` embeds a body whose
`interaction` or `blackboard` field is falsy (the guarded block is skipped).
`events` is `interactionData.blackboard.events.events` when that is an
array, `none` otherwise. -/
structure InteractionPayload where
  mode : List Char
  events : Option (List (List Char))
  deriving DecidableEq

/-- One observed outcome of the pair of poll requests awaited by
`checkStatus`: both succeed with the two parsed bodies, or the
`Promise.all` rejects (transport failure of either request). -/
def PollOutcome := Except Unit (StatusData × Option InteractionPayload)

/-- The step name shown when `statusData.step_name` is falsy. -/
def unknownStep : List Char := "Unknown step".toList

/-- The `if (interactionData.interaction && interactionData.blackboard)` block
of `checkStatus`: mirrors events and mode, and (when the backend is waiting)
pre-computes the waiting step name and the gate classification. -/
def applyInteraction (s : AppState) (sd : StatusData)
    (ip : Option InteractionPayload) : AppState :=
  match ip with
  | none => s
  | some p =>
    let sA := { s with blackboardEvents := p.events.getD [],
                       interactionMode := p.mode }
    if sd.is_waiting_for_input then
      let nm := jsFieldOr sd.step_name unknownStep
      { sA with waitingStepName := nm,
                showApproveReject := shouldShowApproveReject nm }
    else sA

/--
Embedding of `checkStatus()` (app.js), success path. Control flow of the
source, in order:
1. remember `wasRunning`, overwrite `status` and `isProcessRunning`;
2. the interaction block (`applyInteraction`);
3. if the process just stopped (`wasRunning && !is_running`): stop polling,
   close the dialog, clear the input flags, notify, and return early;
4. open the input dialog when the backend waits, the controller is not in
   the just-resumed cool-down, and no input was already required; clear the
   input flags when the backend is not waiting;
5. recompute `isLoading`.
-/
def checkStatusOk (s : AppState) (sd : StatusData)
    (ip : Option InteractionPayload) : AppState :=
  let wasRunning := s.isProcessRunning
  let s1 : AppState :=
    { s with status := jsFieldOr sd.statusMsg [],
             isProcessRunning := sd.is_running }
  let s2 := applyInteraction s1 sd ip
  if wasRunning && !sd.is_running then
    { s2 with pollerActive := false, isLoading := false,
              isWaitingForInput := false,
              userInputRequiredByBackend := false,
              showApproveReject := false }
  else
    let s3 :=
      if sd.is_waiting_for_input && !s2.justResumed then
        if !s2.userInputRequiredByBackend then
          let nm := jsFieldOr sd.step_name unknownStep
          { s2 with pollerActive := false, isWaitingForInput := true,
                    userInputRequiredByBackend := true,
                    waitingStepName := nm, isLoading := false,
                    showApproveReject := shouldShowApproveReject nm }
        else s2
      else if !sd.is_waiting_for_input then
        if s2.userInputRequiredByBackend || s2.isWaitingForInput then
          { s2 with userInputRequiredByBackend := false,
                    isWaitingForInput := false,
                    showApproveReject := false }
        else s2
      else s2
    { s3 with isLoading := s3.isProcessRunning && !s3.isWaitingForInput }

/-- Embedding of `checkStatus()` including its `catch` block: on a rejected
poll the source stops the poller, clears `isLoading`, forces
`isProcessRunning = false` and empties `status` (nothing else changes and no
notification is raised). -/
def checkStatus (s : AppState) (p : PollOutcome) : AppState :=
  match p with
  | .ok (sd, ip) => checkStatusOk s sd ip
  | .error _ =>
    { s with pollerActive := false, isLoading := false,
             isProcessRunning := false, status := [] }

/-- A sequence of poll outcomes processed in order by `checkStatus`. -/
def checkStatusRun (s : AppState) (ps : List PollOutcome) : AppState :=
  ps.foldl checkStatus s

theorem applyInteraction_isWaitingForInput (s : AppState) (sd : StatusData)
    (ip : Option InteractionPayload) :
    (applyInteraction s sd ip).isWaitingForInput = s.isWaitingForInput := by
  cases ip with
  | none => rfl
  | some p =>
    dsimp only [applyInteraction]
    split <;> rfl

theorem applyInteraction_isProcessRunning (s : AppState) (sd : StatusData)
    (ip : Option InteractionPayload) :
    (applyInteraction s sd ip).isProcessRunning = s.isProcessRunning := by
  cases ip with
  | none => rfl
  | some p =>
    dsimp only [applyInteraction]
    split <;> rfl

theorem applyInteraction_justResumed (s : AppState) (sd : StatusData)
    (ip : Option InteractionPayload) :
    (applyInteraction s sd ip).justResumed = s.justResumed := by
  cases ip with
  | none => rfl
  | some p =>
    dsimp only [applyInteraction]
    split <;> rfl

theorem applyInteraction_userInputRequiredByBackend (s : AppState)
    (sd : StatusData) (ip : Option InteractionPayload) :
    (applyInteraction s sd ip).userInputRequiredByBackend =
      s.userInputRequiredByBackend := by
  cases ip with
  | none => rfl
  | some p =>
    dsimp only [applyInteraction]
    split <;> rfl

/-- The §8/§3 invariant: the checkpoint dialog is never open while the flow
is believed stopped. -/
def LifecycleInv (s : AppState) : Prop :=
  ¬(s.isWaitingForInput = true ∧ s.isProcessRunning = false)

/-- A successful poll outcome whose body never reports "waiting for input"
for a process that is not running. -/
def WellFormedPoll (p : PollOutcome) : Prop :=
  ∃ sd ip, p = .ok (sd, ip) ∧
    (sd.is_waiting_for_input = true → sd.is_running = true)

theorem checkStatusOk_inv (s : AppState) (sd : StatusData)
    (ip : Option InteractionPayload)
    (hwf : sd.is_waiting_for_input = true → sd.is_running = true) :
    LifecycleInv (checkStatusOk s sd ip) := by
  unfold checkStatusOk LifecycleInv
  by_cases hfin : (s.isProcessRunning && !sd.is_running) = true
  · simp [hfin]
  · cases hw : sd.is_waiting_for_input with
    | true =>
      have hr := hwf hw
      by_cases hjr : s.justResumed = true
      · simp [hfin, hw, hr, hjr, applyInteraction_justResumed,
          applyInteraction_userInputRequiredByBackend,
          applyInteraction_isWaitingForInput,
          applyInteraction_isProcessRunning]
      · simp only [Bool.not_eq_true] at hjr
        by_cases huir : s.userInputRequiredByBackend = true
        · simp [hfin, hw, hr, hjr, huir, applyInteraction_justResumed,
            applyInteraction_userInputRequiredByBackend,
            applyInteraction_isWaitingForInput,
            applyInteraction_isProcessRunning]
        · simp only [Bool.not_eq_true] at huir
          simp [hfin, hw, hr, hjr, huir, applyInteraction_justResumed,
            applyInteraction_userInputRequiredByBackend,
            applyInteraction_isWaitingForInput,
            applyInteraction_isProcessRunning]
    | false =>
      by_cases hclr : (s.userInputRequiredByBackend || s.isWaitingForInput)
          = true
      · simp [hfin, hw, hclr, applyInteraction_justResumed,
          applyInteraction_userInputRequiredByBackend,
          applyInteraction_isWaitingForInput,
          applyInteraction_isProcessRunning]
      · simp only [Bool.or_eq_true, not_or, Bool.not_eq_true] at hclr
        simp [hfin, hw, hclr.1, hclr.2, applyInteraction_justResumed,
          applyInteraction_userInputRequiredByBackend,
          applyInteraction_isWaitingForInput,
          applyInteraction_isProcessRunning]

/-! ### Feedback handling (app.js, `submitFeedback` and its three callers) -/

/-- Observable outcome of one `submitFeedback(feedback)` call: the component
state when the call settles, the feedback payloads passed to
`api.resumeFlow` (in order), whether the failure notification was raised,
and whether the 2-second timer that later clears `justResumed` was
scheduled. -/
structure SubmitOutcome where
  state : AppState
  resumeFeedbacks : List (List Char)
  notifiedError : Bool
  cooldownResetScheduled : Bool
  deriving DecidableEq

/--
Embedding of `submitFeedback(feedback)` (app.js). The source sets
`isLoading = true` and `justResumed = true` before awaiting
`api.resumeFlow(feedback)` exactly once. On success it closes the dialog,
clears the typed feedback and the approve/reject flag, and schedules a
2-second timer that later resets `justResumed`. On failure it only raises a
notification — `justResumed` stays `true` and no reset timer is scheduled.
The `finally` block sets `isLoading = false` in both cases. `ok` is the
outcome of the awaited gateway call.
-/
def submitFeedback (s : AppState) (feedback : List Char) (ok : Bool) :
    SubmitOutcome :=
  if ok then
    { state := { s with justResumed := true, isWaitingForInput := false,
                        userFeedback := [], showApproveReject := false,
                        isLoading := false },
      resumeFeedbacks := [feedback],
      notifiedError := false,
      cooldownResetScheduled := true }
  else
    { state := { s with justResumed := true, isLoading := false },
      resumeFeedbacks := [feedback],
      notifiedError := true,
      cooldownResetScheduled := false }

/-- The default placeholder sent when the typed feedback is empty. -/
def noFeedbackPlaceholder : List Char := "No feedback provided".toList

/-- Embedding of `handleResume()`:
`submitFeedback(this.userFeedback || 'No feedback provided')`. -/
def handleResume (s : AppState) (ok : Bool) : SubmitOutcome :=
  submitFeedback s (jsStrOr s.userFeedback noFeedbackPlaceholder) ok

/-- Embedding of `handleApprove()`: `submitFeedback('approve')`. -/
def handleApprove (s : AppState) (ok : Bool) : SubmitOutcome :=
  submitFeedback s ("approve".toList) ok

/-- Embedding of `handleReject()` (bound to the "Improve" button):
`submitFeedback(this.userFeedback || 'No feedback provided')`. -/
def handleReject (s : AppState) (ok : Bool) : SubmitOutcome :=
  submitFeedback s (jsStrOr s.userFeedback noFeedbackPlaceholder) ok

/-! ### Cancellation Workflow (app.js, `killProcess` death poller) -/

/-- The state the dedicated cancellation poller of `killProcess` reads and
writes: the `deathPoller` interval handle (as a Boolean), and the component
fields assigned inside the poll callback. -/
structure CancelState where
  deathPollerActive : Bool
  isProcessRunning : Bool
  isLoading : Bool
  status : List Char
  deriving DecidableEq

/--
Embedding of one firing of the `deathPoller` interval callback inside
`killProcess` (app.js). `resp` is the awaited `api.getStatus()` outcome:
`.ok isRunning` carries `data.is_running`; `.error` is a rejected request.
After `clearInterval(deathPoller)` the handle is cleared and no further
callback fires, embedded by making a tick on an inactive poller a no-op.
On `is_running = true` the callback does nothing and the loop continues.
-/
def deathPollTick (s : CancelState) (resp : Except Unit Bool) : CancelState :=
  if s.deathPollerActive then
    match resp with
    | .ok isRunning =>
      if isRunning then s
      else
        { deathPollerActive := false, isProcessRunning := false,
          isLoading := false,
          status := "Process cancelled successfully.".toList }
    | .error _ =>
      { deathPollerActive := false, isProcessRunning := false,
        isLoading := false, status := "Process cancelled.".toList }
  else s

/-- The dedicated cancellation loop processing a sequence of poll outcomes. -/
def deathPollRun (s : CancelState) (rs : List (Except Unit Bool)) :
    CancelState :=
  rs.foldl deathPollTick s

theorem deathPollRun_inactive (s : CancelState)
    (rs : List (Except Unit Bool)) (h : s.deathPollerActive = false) :
    deathPollRun s rs = s := by
  induction rs with
  | nil => rfl
  | cons r rs ih =>
    have hstep : deathPollTick s r = s := by
      unfold deathPollTick
      simp [h]
    unfold deathPollRun at ih ⊢
    rw [List.foldl_cons, hstep]
    exact ih

/-! ### Polling Scheduler (app.js, `startPolling` and the event loop)

`startPolling()` invokes `checkStatusBound()` once immediately and then
registers `setInterval(checkStatusBound, 3000)`. The callback is

    const checkStatusBound = async () => {
      try { await this.checkStatus(); }
      catch (error) { console.error('Error in status check:', error); }
    };

It contains no in-flight guard of any kind, so every interval tick starts a
new `checkStatus` call whether or not an earlier one has settled. The
event-loop semantics is embedded as a transition system: a `tick` event is
the interval callback firing (it starts one poll when the timer is
registered), a `settle` event is one outstanding `checkStatus` promise
settling. `inFlight` counts polls started and not yet settled. -/

structure SchedState where
  timerActive : Bool
  inFlight : Nat
  deriving DecidableEq

inductive SchedEvent where
  | tick
  | settle
  deriving DecidableEq

def schedStep (s : SchedState) : SchedEvent → SchedState
  | .tick =>
    if s.timerActive then { s with inFlight := s.inFlight + 1 } else s
  | .settle => { s with inFlight := s.inFlight - 1 }

def schedRun (s : SchedState) (es : List SchedEvent) : SchedState :=
  es.foldl schedStep s

/-- The scheduler state right after `startPolling()` returns: the interval
is registered and the immediate `checkStatusBound()` call is in flight. -/
def schedInit : SchedState where
  timerActive := true
  inFlight := 1

/-! ### Conversation Session Manager (ChatPopup.js)

A JS plain object used as a keyed collection is embedded as an
insertion-ordered association list with unique keys. `Object.keys` is the
list of first components; the spread update `{...obj, [k]: v}` keeps an
existing key in place and appends a fresh one; `delete obj[k]` removes the
entry. Timestamps (`Date.now()`, `toISOString()`) are embedded as a `Nat`
supplied by the caller. -/

/-- JS property read `obj[k]` (`undefined` becomes `none`). -/
def objGet {α : Type} : List (List Char × α) → List Char → Option α
  | [], _ => none
  | (k', v) :: t, k => if k' = k then some v else objGet t k

/-- JS spread update `{...obj, [k]: v}`. -/
def objSet {α : Type} (m : List (List Char × α)) (k : List Char) (v : α) :
    List (List Char × α) :=
  if (objGet m k).isSome then
    m.map (fun p => if p.1 = k then (k, v) else p)
  else m ++ [(k, v)]

/-- JS `delete obj[k]`. -/
def objDelete {α : Type} (m : List (List Char × α)) (k : List Char) :
    List (List Char × α) :=
  m.filter (fun p => decide (p.1 ≠ k))

/-- JS `Object.keys(obj)` (insertion order). -/
def objKeys {α : Type} (m : List (List Char × α)) : List (List Char) :=
  m.map Prod.fst

inductive Role where
  | user
  | assistant
  deriving DecidableEq

structure ChatMessage where
  role : Role
  content : List Char
  isError : Bool
  createdAt : Nat
  deriving DecidableEq

structure Conversation where
  id : List Char
  title : List Char
  messages : List ChatMessage
  createdAt : Nat
  updatedAt : Nat
  deriving DecidableEq

/-- The reactive state of the ChatPopup component read and written by the
session-management functions (persistence via `saveConversations` and the
presentation refs are not modelled). -/
structure ChatState where
  conversations : List (List Char × Conversation)
  currentConversationId : Option (List Char)
  isLoading : Bool
  userInput : List Char
  deriving DecidableEq

/-- JS whitespace trimmed by `String.prototype.trim`. -/
def isJsSpace (c : Char) : Bool :=
  decide (c = ' ') || decide (c = '\t') || decide (c = '\n') ||
  decide (c = '\r') || decide (c = '\x0b') || decide (c = '\x0c')

/-- Embedding of `userInput.value.trim()`. -/
def trimChars (s : List Char) : List Char :=
  ((s.dropWhile isJsSpace).reverse.dropWhile isJsSpace).reverse

/-- Embedding of `newChat()` (ChatPopup.js): generates the id
`'conv-' + Date.now()`, stores a fresh empty conversation, and makes it
current. Returns the new conversation as the source function does. -/
def newChat (s : ChatState) (now : Nat) : ChatState × Conversation :=
  let newId := "conv-".toList ++ (Nat.repr now).toList
  let conv : Conversation :=
    { id := newId, title := "New Chat".toList, messages := [],
      createdAt := now, updatedAt := now }
  ({ s with conversations := objSet s.conversations newId conv,
            currentConversationId := some newId },
   conv)

/-- Embedding of `deleteConversation(conversationId)` (ChatPopup.js): a
missing id is a no-op; deleting the current conversation moves `currentId`
to the first remaining key, or `null` when none remain. -/
def deleteConversation (s : ChatState) (cid : List Char) : ChatState :=
  if (objGet s.conversations cid).isSome then
    let updated := objDelete s.conversations cid
    let cur :=
      if s.currentConversationId = some cid then
        match objKeys updated with
        | [] => none
        | k :: _ => some k
      else s.currentConversationId
    { s with conversations := updated, currentConversationId := cur }
  else s

/-- `msg.role === 'user' ? 'User' : 'Assistant'` plus `': ' + content`. -/
def fmtMessage (m : ChatMessage) : List Char :=
  (match m.role with
   | .user => "User".toList
   | .assistant => "Assistant".toList) ++ ": ".toList ++ m.content

/-- Embedding of `Array.prototype.join(sep)`. -/
def joinSep (sep : List Char) : List (List Char) → List Char
  | [] => []
  | [a] => a
  | a :: b :: t => a ++ sep ++ joinSep sep (b :: t)

/-- The `fullQuestion` template string of `sendMessage`: the serialized
transcript of `conversation.messages` (which at that point already ends
with the just-appended user message) followed by one more `User:` line
carrying the same message. -/
def fullQuestionOf (messages : List ChatMessage) (message : List Char) :
    List Char :=
  "Conversation so far:\n\n".toList ++
  joinSep ("\n\n".toList) (messages.map fmtMessage) ++
  "\n\nUser: ".toList ++ message

/-- The body posted to `/api/consult-crew/chat`. -/
structure ChatRequest where
  question : List Char
  conversation_id : List Char
  deriving DecidableEq

/-- The fallback answer `response.data.answer || 'I apologize, ...'`. -/
def apologyAnswer : List Char :=
  "I apologize, but I encountered an issue processing your request.".toList

/-- The synthetic message appended when the chat request rejects. -/
def chatErrorText : List Char :=
  "Sorry, I encountered an error. Please try again.".toList

/--
Embedding of `sendMessage()` (ChatPopup.js). Guard: an input that trims to
the empty string, a `null` `currentConversationId`, or an in-flight send
(`isLoading`) returns without doing anything. Otherwise the source
- takes the conversation for `currentConversationId`, calling `newChat()`
  when the id references no stored conversation (the returned fresh
  conversation is then the target, and `currentConversationId` now holds
  its id);
- appends the user message, derives the title from a first message
  (truncated to 30 characters plus `'...'`), clears the input;
- posts `fullQuestion` with the current conversation id;
- appends the answer (with the apology fallback for a falsy answer), or
  on rejection the synthetic error message, and clears `isLoading`.
`now` stands for the clock readings and `apiResult` for the awaited
outcome of `apiService.chatWithCrew`. Returns the settled state and the
request body that was posted (`none` when the guard returned early).
-/
def sendMessage (s : ChatState) (now : Nat)
    (apiResult : Except Unit (List Char)) : ChatState × Option ChatRequest :=
  let message := trimChars s.userInput
  match s.currentConversationId with
  | none => (s, none)
  | some cid0 =>
    if message = [] || s.isLoading then (s, none)
    else
      let got := objGet s.conversations cid0
      let s1 := match got with
        | some _ => s
        | none => (newChat s now).1
      let conv0 := match got with
        | some c => c
        | none => (newChat s now).2
      let cid := match got with
        | some _ => cid0
        | none => (newChat s now).2.id
      let userMessage : ChatMessage :=
        { role := .user, content := message, isError := false,
          createdAt := now }
      let convA :=
        { conv0 with messages := conv0.messages ++ [userMessage],
                     updatedAt := now }
      let convB :=
        if convA.messages.length = 1 then
          { convA with
              title := if 30 < message.length then
                  message.take 30 ++ "...".toList
                else message }
        else convA
      let s2 := { s1 with conversations := objSet s1.conversations cid convB,
                          userInput := [] }
      let req : ChatRequest :=
        { question := fullQuestionOf convB.messages message,
          conversation_id := cid }
      let answered := match apiResult with
        | .ok answer =>
          { convB with
              messages := convB.messages ++
                [{ role := .assistant,
                   content := jsStrOr answer apologyAnswer,
                   isError := false, createdAt := now }],
              updatedAt := now }
        | .error _ =>
          { convB with
              messages := convB.messages ++
                [{ role := .assistant, content := chatErrorText,
                   isError := true, createdAt := now }],
              updatedAt := now }
      ({ s2 with conversations := objSet s2.conversations cid answered,
                 isLoading := false },
       some req)

/-! ### Durable-storage loading (ChatPopup.js, `loadConversations`)

`loadConversations` reads `localStorage.getItem('conversations')` and, when
the value is truthy, feeds it to `JSON.parse` with no `try`/`catch`.
`JSON.parse` is a host built-in (it is not part of this repository), so it
is modelled here from the JSON grammar it implements: a fuel-indexed
recursive-descent parser over ECMA-404 JSON texts that returns `none`
exactly where `JSON.parse` raises a `SyntaxError`. -/

inductive JsonValue where
  | jnull
  | jbool (b : Bool)
  | jstr (s : List Char)
  | jnum (text : List Char)
  | jarr (elems : List JsonValue)
  | jobj (fields : List (List Char × JsonValue))

/-- JSON insignificant whitespace. -/
def isJsonWs (c : Char) : Bool :=
  decide (c = ' ') || decide (c = '\t') || decide (c = '\n') ||
  decide (c = '\r')

def skipWs (cs : List Char) : List Char := cs.dropWhile isJsonWs

def isDigitC (c : Char) : Bool := decide ('0' ≤ c) && decide (c ≤ '9')

def isHexDigitC (c : Char) : Bool :=
  isDigitC c || (decide ('a' ≤ c) && decide (c ≤ 'f')) ||
  (decide ('A' ≤ c) && decide (c ≤ 'F'))

def hexVal (c : Char) : Nat :=
  if isDigitC c then c.toNat - 48
  else if decide ('a' ≤ c) && decide (c ≤ 'f') then c.toNat - 87
  else if decide ('A' ≤ c) && decide (c ≤ 'F') then c.toNat - 55
  else 0

/-- JSON string body after the opening quote: returns the decoded content
and the remainder after the closing quote. Fuelled; the caller passes more
fuel than there are characters. -/
def parseStr : Nat → List Char → Option (List Char × List Char)
  | 0, _ => none
  | Nat.succ f, cs =>
    match cs with
    | [] => none
    | '"' :: rest => some ([], rest)
    | '\\' :: rest0 =>
      match rest0 with
      | [] => none
      | e :: rest =>
        if e = '"' || e = '\\' || e = '/' then
          (parseStr f rest).map (fun pr => (e :: pr.1, pr.2))
        else if e = 'b' then
          (parseStr f rest).map (fun pr => ('\x08' :: pr.1, pr.2))
        else if e = 'f' then
          (parseStr f rest).map (fun pr => ('\x0c' :: pr.1, pr.2))
        else if e = 'n' then
          (parseStr f rest).map (fun pr => ('\n' :: pr.1, pr.2))
        else if e = 'r' then
          (parseStr f rest).map (fun pr => ('\r' :: pr.1, pr.2))
        else if e = 't' then
          (parseStr f rest).map (fun pr => ('\t' :: pr.1, pr.2))
        else if e = 'u' then
          match rest with
          | h1 :: h2 :: h3 :: h4 :: rest2 =>
            if isHexDigitC h1 && isHexDigitC h2 && isHexDigitC h3 &&
                isHexDigitC h4 then
              (parseStr f rest2).map (fun pr =>
                (Char.ofNat
                    (hexVal h1 * 4096 + hexVal h2 * 256 +
                     hexVal h3 * 16 + hexVal h4) :: pr.1, pr.2))
            else none
          | _ => none
        else none
    | c :: rest =>
      if c.toNat < 32 then none
      else (parseStr f rest).map (fun pr => (c :: pr.1, pr.2))

def digitSpan (cs : List Char) : List Char × List Char :=
  (cs.takeWhile isDigitC, cs.dropWhile isDigitC)

/-- Optional JSON fraction part. -/
def parseFracPart (cs : List Char) : Option (List Char × List Char) :=
  match cs with
  | '.' :: t =>
    let (ds, rest) := digitSpan t
    if ds = [] then none else some ('.' :: ds, rest)
  | _ => some ([], cs)

/-- Optional JSON exponent part. -/
def parseExpPart (cs : List Char) : Option (List Char × List Char) :=
  match cs with
  | c :: t =>
    if c = 'e' || c = 'E' then
      let (sgn, t1) := match t with
        | '+' :: u => ((['+'] : List Char), u)
        | '-' :: u => ((['-'] : List Char), u)
        | _ => (([] : List Char), t)
      let (ds, rest) := digitSpan t1
      if ds = [] then none else some (c :: (sgn ++ ds), rest)
    else some ([], cs)
  | [] => some ([], [])

/-- JSON number: `-? (0 | [1-9][0-9]*) frac? exp?`, returned as raw text. -/
def parseNum (cs : List Char) : Option (List Char × List Char) :=
  let (sign, cs1) := match cs with
    | '-' :: t => ((['-'] : List Char), t)
    | _ => (([] : List Char), cs)
  match cs1 with
  | [] => none
  | c :: t =>
    let intPart : Option (List Char × List Char) :=
      if c = '0' then some (sign ++ ['0'], t)
      else if isDigitC c then
        let (ds, rest) := digitSpan t
        some (sign ++ c :: ds, rest)
      else none
    match intPart with
    | none => none
    | some (ip, r1) =>
      match parseFracPart r1 with
      | none => none
      | some (fp, r2) =>
        match parseExpPart r2 with
        | none => none
        | some (ep, r3) => some (ip ++ fp ++ ep, r3)

/-- Parser modes: a single value, the members of an object (after `\x7b`,
known non-empty), the elements of an array (after `[`, known non-empty). -/
inductive PMode where
  | val
  | members
  | elems

inductive PRes where
  | v (x : JsonValue)
  | fs (l : List (List Char × JsonValue))
  | es (l : List JsonValue)

/-- The recursive-descent JSON parser, structurally recursive on fuel. -/
def parseJ : Nat → PMode → List Char → Option (PRes × List Char)
  | 0, _, _ => none
  | Nat.succ fuel, PMode.val, cs0 =>
    let cs := skipWs cs0
    match cs with
    | 'n' :: 'u' :: 'l' :: 'l' :: rest => some (.v .jnull, rest)
    | 't' :: 'r' :: 'u' :: 'e' :: rest => some (.v (.jbool true), rest)
    | 'f' :: 'a' :: 'l' :: 's' :: 'e' :: rest =>
      some (.v (.jbool false), rest)
    | '"' :: rest =>
      match parseStr (rest.length + 1) rest with
      | some (s, r) => some (.v (.jstr s), r)
      | none => none
    | '\x7b' :: rest =>
      match skipWs rest with
      | '\x7d' :: r2 => some (.v (.jobj []), r2)
      | _ =>
        match parseJ fuel PMode.members rest with
        | some (.fs l, r) => some (.v (.jobj l), r)
        | _ => none
    | '[' :: rest =>
      match skipWs rest with
      | ']' :: r2 => some (.v (.jarr []), r2)
      | _ =>
        match parseJ fuel PMode.elems rest with
        | some (.es l, r) => some (.v (.jarr l), r)
        | _ => none
    | _ =>
      match parseNum cs with
      | some (txt, r) => some (.v (.jnum txt), r)
      | none => none
  | Nat.succ fuel, PMode.members, cs0 =>
    match skipWs cs0 with
    | '"' :: rest =>
      match parseStr (rest.length + 1) rest with
      | some (key, r1) =>
        (match skipWs r1 with
         | ':' :: r3 =>
           match parseJ fuel PMode.val r3 with
           | some (.v v, r4) =>
             (match skipWs r4 with
              | ',' :: r6 =>
                (match parseJ fuel PMode.members r6 with
                 | some (.fs l, r) => some (.fs ((key, v) :: l), r)
                 | _ => none)
              | '\x7d' :: r6 => some (.fs [(key, v)], r6)
              | _ => none)
           | _ => none
         | _ => none)
      | none => none
    | _ => none
  | Nat.succ fuel, PMode.elems, cs0 =>
    match parseJ fuel PMode.val cs0 with
    | some (.v v, r1) =>
      (match skipWs r1 with
       | ',' :: r2 =>
         (match parseJ fuel PMode.elems r2 with
          | some (.es l, r) => some (.es (v :: l), r)
          | _ => none)
       | ']' :: r2 => some (.es [v], r2)
       | _ => none)
    | _ => none

/-- Modelled from the spec: the host `JSON.parse` used by
`loadConversations` (the built-in itself is not repository code). `none`
is a raised `SyntaxError`: an unparsable text or trailing garbage. -/
def jsonParse (s : List Char) : Option JsonValue :=
  match parseJ (s.length + 1) PMode.val s with
  | some (.v x, rest) => if skipWs rest = [] then some x else none
  | _ => none

/--
Embedding of `loadConversations()` (ChatPopup.js):

    const storedConversations = localStorage.getItem('conversations');
    if (storedConversations) {
      conversations.value = JSON.parse(storedConversations);
    }

`stored` is the `getItem` result (`none` for an absent key). A falsy value
(absent key or empty string) leaves the default empty collection. For a
truthy value the unprotected `JSON.parse` call either yields a value that
is assigned wholesale to `conversations`, or raises — there is no
`try`/`catch`, so the exception propagates out of `loadConversations`
(embedded as `.error`). `.ok none` means the default `\x7b\x7d` collection
was kept. -/
def loadConversations (stored : Option (List Char)) :
    Except (List Char) (Option JsonValue) :=
  match stored with
  | none => .ok none
  | some s =>
    if s = [] then .ok none
    else
      match jsonParse s with
      | some v => .ok (some v)
      | none => .error ("SyntaxError".toList)

/-! ## Claim theorems -/

/-! ### Claim C1 -/

/-- The state after `startPolling()` ran from the `data()` defaults. -/
def pollingState : AppState :=
  { initialData with pollerActive := true, isLoading := true }

/-- A successful poll reporting a running process that waits for input. -/
def waitingPoll : PollOutcome :=
  .ok ({ is_running := true, is_waiting_for_input := true,
         step_name := some ("step_x".toList),
         statusMsg := some ("Working".toList) },
       some { mode := "assisted".toList, events := none })

/-- Claim C1 counterexample: after a poll opens the checkpoint, one
transport failure (processed because the `created()` watchdog restarts
polling while `isProcessRunning` is still believed true) leaves
`isWaitingForInput = true` with `isProcessRunning = false`: the checkpoint
is open while the lifecycle is stopped. -/
theorem checkStatus_waiting_stopped_cex :
    (checkStatusRun pollingState [waitingPoll, .error ()]).isWaitingForInput
        = true
  ∧ (checkStatusRun pollingState [waitingPoll, .error ()]).isProcessRunning
        = false := by
  exact ⟨rfl, rfl⟩

/-- Claim C1 (amended): over every sequence of successful poll responses in
which a body reporting `is_waiting_for_input` also reports `is_running`,
`checkStatus` preserves the invariant that the checkpoint is never open
while the lifecycle is stopped. (A transport failure, or a body reporting
waiting-without-running, can break the invariant, as the counterexample
shows.) -/
theorem checkStatus_lifecycle_invariant (s : AppState)
    (ps : List PollOutcome) (hs : LifecycleInv s)
    (hps : ∀ p ∈ ps, WellFormedPoll p) :
    LifecycleInv (checkStatusRun s ps) := by
  induction ps generalizing s with
  | nil => exact hs
  | cons p ps ih =>
    rcases hps p (List.mem_cons_self p ps) with ⟨sd, ip, hp, hwf⟩
    have hstep : checkStatusRun s (p :: ps)
        = checkStatusRun (checkStatusOk s sd ip) ps := by
      unfold checkStatusRun
      rw [List.foldl_cons, hp]
      rfl
    rw [hstep]
    exact ih (checkStatusOk s sd ip) (checkStatusOk_inv s sd ip hwf)
      (fun q hq => hps q (List.mem_cons_of_mem p hq))

/-- Witness for C1: a concrete well-formed poll sequence from the
post-`startPolling` state keeps the invariant. -/
theorem checkStatus_lifecycle_invariant_witness :
    LifecycleInv (checkStatusRun pollingState [waitingPoll]) := by
  apply checkStatus_lifecycle_invariant pollingState [waitingPoll]
  · intro h
    exact absurd h.1 (by decide)
  · intro p hp
    have hp' : p = waitingPoll := by simpa using hp
    subst hp'
    exact ⟨_, _, rfl, fun _ => rfl⟩

/-! ### Claim C2 -/

/-- Claim C2 counterexample: from the state right after `startPolling()`
(one poll already in flight), a single interval tick starts a second
`checkStatus` call — two polls are in flight, so a tick that fires while a
prior poll has not completed is not skipped. -/
theorem schedTick_overlap_cex :
    (schedRun schedInit [SchedEvent.tick]).inFlight = 2 := rfl

/-- Claim C2 (amended): the scheduler has no in-flight guard — while the
interval is registered, every tick starts one more `checkStatus` call,
whatever the number of outstanding polls. -/
theorem schedTick_always_polls (s : SchedState)
    (h : s.timerActive = true) :
    (schedStep s SchedEvent.tick).inFlight = s.inFlight + 1 := by
  simp [schedStep, h]

/-- Witness for C2 at the post-`startPolling` state. -/
theorem schedTick_always_polls_witness :
    (schedStep schedInit SchedEvent.tick).inFlight = schedInit.inFlight + 1 :=
  schedTick_always_polls schedInit rfl

/-! ### Claim C3 -/

/-- A state in which a flow is believed running and the poller is active. -/
def runningState : AppState :=
  { initialData with isProcessRunning := true, pollerActive := true,
                     isLoading := true, status := "Working".toList }

/-- Claim C3 counterexample: a transport failure of a normal status poll
(outside the Cancellation Workflow) flips `isProcessRunning` from `true`
to `false` and stops the scheduler — the lifecycle does not stay
unchanged. -/
theorem checkStatus_transport_failure_cex :
    runningState.isProcessRunning = true
  ∧ runningState.pollerActive = true
  ∧ (checkStatus runningState (.error ())).isProcessRunning = false
  ∧ (checkStatus runningState (.error ())).pollerActive = false := by
  exact ⟨rfl, rfl, rfl, rfl⟩

/-- Claim C3 (amended): on a transport failure of a status poll the `catch`
block of `checkStatus` stops the scheduler, forces `isProcessRunning` to
`false`, clears `isLoading` and empties the status message, while the
input-dialog fields, the typed feedback and the cool-down flag keep their
values; no notification is raised on this path (the failure is logged only
when the process was believed running). -/
theorem checkStatus_transport_failure_behavior (s : AppState) :
    (checkStatus s (.error ())).isProcessRunning = false
  ∧ (checkStatus s (.error ())).pollerActive = false
  ∧ (checkStatus s (.error ())).isLoading = false
  ∧ (checkStatus s (.error ())).status = []
  ∧ (checkStatus s (.error ())).isWaitingForInput = s.isWaitingForInput
  ∧ (checkStatus s (.error ())).userInputRequiredByBackend
      = s.userInputRequiredByBackend
  ∧ (checkStatus s (.error ())).userFeedback = s.userFeedback
  ∧ (checkStatus s (.error ())).justResumed = s.justResumed
  ∧ (checkStatus s (.error ())).showApproveReject = s.showApproveReject
  ∧ (checkStatus s (.error ())).waitingStepName = s.waitingStepName := by
  exact ⟨rfl, rfl, rfl, rfl, rfl, rfl, rfl, rfl, rfl, rfl⟩

/-! ### Claim C4 -/

/-- Modelled from the spec: the claimed Approve/Reject condition — the step
name contains one of the four review substrings or matches the pattern
`resource_*_research_review`. -/
def GateSpecSet (name : List Char) : Prop :=
  "initial_research".toList <:+: name ∨
  "per_resource_research".toList <:+: name ∨
  "project_structure_review".toList <:+: name ∨
  "image_retrieval_review".toList <:+: name ∨
  MatchesResourceReview name

/-- A step name on which the code and the claimed condition disagree. -/
def strayName : List Char := "_research_review_resource_x".toList

/-- Claim C4 counterexample: `"_research_review_resource_x"` contains
`resource_` and `_research_review` (in the wrong order), so the code
classifies it Approve/Reject, yet it contains none of the four review
substrings and does not match `resource_*_research_review`. The code's
condition is therefore not "exactly" the claimed one. -/
theorem shouldShowApproveReject_pattern_cex :
    shouldShowApproveReject strayName = true ∧ ¬ GateSpecSet strayName := by
  refine ⟨rfl, ?_⟩
  rintro (h | h | h | h | h)
  · exact absurd ((includesSub_iff _ _).2 h) (by decide)
  · exact absurd ((includesSub_iff _ _).2 h) (by decide)
  · exact absurd ((includesSub_iff _ _).2 h) (by decide)
  · exact absurd ((includesSub_iff _ _).2 h) (by decide)
  · exact absurd ((matchesResourceReviewB_iff _).2 h) (by decide)

/-- Claim C4 (amended): the gate classifies Approve/Reject exactly when the
step name contains one of the four review substrings or contains both
`resource_` and `_research_review` (a strictly weaker test than matching
`resource_*_research_review`, which it implies); in particular every name
matching the pattern classifies Approve/Reject, a name containing
`project_structure_review` classifies Approve/Reject, and
`manual_fix_step` classifies Free-form Resume. -/
theorem shouldShowApproveReject_characterization :
    (∀ name, shouldShowApproveReject name = true ↔
      ("initial_research".toList <:+: name ∨
       "per_resource_research".toList <:+: name ∨
       "project_structure_review".toList <:+: name ∨
       "image_retrieval_review".toList <:+: name ∨
       ("resource_".toList <:+: name ∧ "_research_review".toList <:+: name)))
  ∧ (∀ name, MatchesResourceReview name →
       shouldShowApproveReject name = true)
  ∧ shouldShowApproveReject ("project_structure_review".toList) = true
  ∧ shouldShowApproveReject ("manual_fix_step".toList) = false := by
  have hchar : ∀ name, shouldShowApproveReject name = true ↔
      ("initial_research".toList <:+: name ∨
       "per_resource_research".toList <:+: name ∨
       "project_structure_review".toList <:+: name ∨
       "image_retrieval_review".toList <:+: name ∨
       ("resource_".toList <:+: name ∧
        "_research_review".toList <:+: name)) := by
    intro name
    simp only [shouldShowApproveReject, Bool.or_eq_true, Bool.and_eq_true,
      includesSub_iff]
    tauto
  refine ⟨hchar, ?_, rfl, rfl⟩
  intro name h
  rcases h with ⟨pre, rest, heq, hinf⟩
  have h1 : "resource_".toList <:+: name := by
    refine ⟨pre, rest, ?_⟩
    rw [heq]
  have hsuf : rest <:+ name := by
    refine ⟨pre ++ "resource_".toList, ?_⟩
    rw [heq]
  have h2 : "_research_review".toList <:+: name := hinf.trans hsuf.isInfix
  exact (hchar name).2 (Or.inr (Or.inr (Or.inr (Or.inr ⟨h1, h2⟩))))

/-- Witness for C4: a name matching `resource_*_research_review` classifies
Approve/Reject. -/
theorem shouldShowApproveReject_characterization_witness :
    shouldShowApproveReject ("resource_nginx_research_review".toList)
      = true :=
  shouldShowApproveReject_characterization.2.1
    ("resource_nginx_research_review".toList)
    ⟨[], "nginx_research_review".toList, by decide,
     ⟨"nginx".toList, [], by decide⟩⟩

/-! ### Claim C5 -/

theorem submitFeedback_resumeFeedbacks (s : AppState) (fb : List Char)
    (ok : Bool) : (submitFeedback s fb ok).resumeFeedbacks = [fb] := by
  cases ok <;> rfl

/-- Claim C5: `approve()` always posts the literal token `approve` to
`resumeFlow`; the Improve button and the free-form Resume button post the
typed feedback, falling back to the placeholder
`No feedback provided` when the typed feedback is empty. -/
theorem feedback_payloads (s : AppState) (ok : Bool) :
    (handleApprove s ok).resumeFeedbacks = ["approve".toList]
  ∧ (s.userFeedback ≠ [] →
      (handleReject s ok).resumeFeedbacks = [s.userFeedback]
    ∧ (handleResume s ok).resumeFeedbacks = [s.userFeedback])
  ∧ (s.userFeedback = [] →
      (handleReject s ok).resumeFeedbacks = [noFeedbackPlaceholder]
    ∧ (handleResume s ok).resumeFeedbacks = [noFeedbackPlaceholder]) := by
  refine ⟨submitFeedback_resumeFeedbacks s _ ok, ?_, ?_⟩
  · intro h
    constructor <;>
      simp [handleReject, handleResume, submitFeedback_resumeFeedbacks,
        jsStrOr, h]
  · intro h
    constructor <;>
      simp [handleReject, handleResume, submitFeedback_resumeFeedbacks,
        jsStrOr, h]

/-- Witness for C5 at concrete feedback values. -/
theorem feedback_payloads_witness :
    (handleReject { initialData with userFeedback := "fix it".toList }
        true).resumeFeedbacks = ["fix it".toList]
  ∧ (handleResume initialData false).resumeFeedbacks
      = [noFeedbackPlaceholder] :=
  ⟨((feedback_payloads
        { initialData with userFeedback := "fix it".toList } true).2.1
      (by decide)).1,
   ((feedback_payloads initialData false).2.2 rfl).2⟩

/-! ### Claim C6 -/

/-- Claim C6: while the dedicated cancellation poller is active, the first
poll response showing `is_running = false` clears the poller handle,
moves the lifecycle to stopped (`isProcessRunning = false`), and every
later poll outcome leaves the state untouched — no further cancellation
poll has any effect once the loop stopped. -/
theorem deathPoller_stops_on_not_running (s : CancelState)
    (rs : List (Except Unit Bool)) (h : s.deathPollerActive = true) :
    (deathPollTick s (.ok false)).deathPollerActive = false
  ∧ (deathPollTick s (.ok false)).isProcessRunning = false
  ∧ deathPollRun (deathPollTick s (.ok false)) rs
      = deathPollTick s (.ok false) := by
  have hstep : deathPollTick s (.ok false)
      = { deathPollerActive := false, isProcessRunning := false,
          isLoading := false,
          status := "Process cancelled successfully.".toList } := by
    unfold deathPollTick
    simp [h]
  refine ⟨by rw [hstep], by rw [hstep], ?_⟩
  apply deathPollRun_inactive
  rw [hstep]

/-- Witness for C6 on a concrete cancelling state and a concrete tail of
poll outcomes. -/
theorem deathPoller_stops_on_not_running_witness :
    (deathPollTick
        { deathPollerActive := true, isProcessRunning := true,
          isLoading := true, status := [] } (.ok false)).isProcessRunning
      = false
  ∧ deathPollRun
      (deathPollTick
        { deathPollerActive := true, isProcessRunning := true,
          isLoading := true, status := [] } (.ok false))
      [.ok true, .error ()]
    = deathPollTick
        { deathPollerActive := true, isProcessRunning := true,
          isLoading := true, status := [] } (.ok false) := by
  have h := deathPoller_stops_on_not_running
    { deathPollerActive := true, isProcessRunning := true,
      isLoading := true, status := [] } [.ok true, .error ()] rfl
  exact ⟨h.2.1, h.2.2⟩

/-! ### Claim C7 -/

/-- A state with an open checkpoint and typed feedback, before resume. -/
def checkpointState : AppState :=
  { initialData with isWaitingForInput := true,
                     userInputRequiredByBackend := true,
                     waitingStepName := "manual_fix_step".toList,
                     userFeedback := "fix the probe".toList,
                     showApproveReject := false }

/-- Claim C7 counterexample: a failed resume does not leave the controller
state otherwise unchanged — `submitFeedback` sets the `justResumed`
cool-down flag before the gateway call and the failure path never resets
it, so it flips from `false` to `true` and stays set. -/
theorem submitFeedback_failure_cex :
    checkpointState.justResumed = false
  ∧ (submitFeedback checkpointState ("fix the probe".toList)
        false).state.justResumed = true := by
  exact ⟨rfl, rfl⟩

/-- Claim C7 (amended): on a failed resume the checkpoint stays open (the
dialog remains visible, the typed feedback and the gate classification are
retained, as are the lifecycle and scheduler fields), exactly one
`resumeFlow` call was made (no automatic retry), and the failure is
surfaced by a notification; however `justResumed` is left set to `true`
and `isLoading` ends `false`. -/
theorem submitFeedback_failure_behavior (s : AppState) (fb : List Char) :
    (submitFeedback s fb false).state.isWaitingForInput
        = s.isWaitingForInput
  ∧ (submitFeedback s fb false).state.userFeedback = s.userFeedback
  ∧ (submitFeedback s fb false).state.showApproveReject
      = s.showApproveReject
  ∧ (submitFeedback s fb false).state.userInputRequiredByBackend
      = s.userInputRequiredByBackend
  ∧ (submitFeedback s fb false).state.waitingStepName = s.waitingStepName
  ∧ (submitFeedback s fb false).state.isProcessRunning
      = s.isProcessRunning
  ∧ (submitFeedback s fb false).state.pollerActive = s.pollerActive
  ∧ (submitFeedback s fb false).state.justResumed = true
  ∧ (submitFeedback s fb false).state.isLoading = false
  ∧ (submitFeedback s fb false).resumeFeedbacks = [fb]
  ∧ (submitFeedback s fb false).notifiedError = true
  ∧ (submitFeedback s fb false).cooldownResetScheduled = false := by
  exact ⟨rfl, rfl, rfl, rfl, rfl, rfl, rfl, rfl, rfl, rfl, rfl, rfl⟩

/-! ### Claim C8 -/

theorem objSet_cons_ne {α : Type} (k' : List Char) (v' : α)
    (t : List (List Char × α)) (k : List Char) (v : α) (h : k' ≠ k) :
    objSet ((k', v') :: t) k v = (k', v') :: objSet t k v := by
  have hg : objGet ((k', v') :: t) k = objGet t k := by simp [objGet, h]
  unfold objSet
  rw [hg]
  by_cases hs : (objGet t k).isSome
  · simp [hs, h]
  · simp [hs]

theorem objGet_objSet {α : Type} (m : List (List Char × α)) (k : List Char)
    (v : α) : objGet (objSet m k v) k = some v := by
  induction m with
  | nil => simp [objSet, objGet]
  | cons p t ih =>
    obtain ⟨k', v'⟩ := p
    by_cases h : k' = k
    · subst h
      simp [objSet, objGet]
    · rw [objSet_cons_ne k' v' t k v h]
      simp [objGet, h, ih]

/-- A state with input typed but no current conversation selected. -/
def noSessionState : ChatState :=
  { conversations := [], currentConversationId := none,
    isLoading := false, userInput := "hello".toList }

/-- Claim C8 counterexample: with `currentConversationId = null` and
non-empty input, `sendMessage` hits the early-return guard — no session is
created (`conversations` stays empty) and nothing is posted, contradicting
"implicitly creates a new session before sending". -/
theorem chat_session_cex :
    (sendMessage noSessionState 7 (.ok ("hi".toList))).1 = noSessionState
  ∧ (sendMessage noSessionState 7 (.ok ("hi".toList))).2 = none := by
  exact ⟨rfl, rfl⟩

/-- Claim C8 (amended): deleting the only existing conversation sets
`currentConversationId` to `null`; `sendMessage` with a `null`
`currentConversationId` returns early and does nothing (no session is
created, nothing is sent); a new session is implicitly created before
sending only when `currentConversationId` references a conversation that
is no longer stored (a dangling id). -/
theorem chat_session_management :
    (∀ (s : ChatState) (k : List Char) (c : Conversation),
      s.conversations = [(k, c)] → s.currentConversationId = some k →
        (deleteConversation s k).conversations = []
      ∧ (deleteConversation s k).currentConversationId = none)
  ∧ (∀ (s : ChatState) (now : Nat) (r : Except Unit (List Char)),
      s.currentConversationId = none → sendMessage s now r = (s, none))
  ∧ (∀ (s : ChatState) (cid : List Char) (now : Nat)
        (r : Except Unit (List Char)),
      s.currentConversationId = some cid →
      objGet s.conversations cid = none →
      trimChars s.userInput ≠ [] → s.isLoading = false →
        objGet (sendMessage s now r).1.conversations
          ("conv-".toList ++ (Nat.repr now).toList) ≠ none
      ∧ ∃ req, (sendMessage s now r).2 = some req ∧
          req.conversation_id = "conv-".toList ++ (Nat.repr now).toList) := by
  refine ⟨?_, ?_, ?_⟩
  · intro s k c h1 h2
    simp [deleteConversation, objGet, objDelete, objKeys, h1, h2]
  · intro s now r h
    simp [sendMessage, h]
  · intro s cid now r h1 h2 h3 h4
    have hg : (decide (trimChars s.userInput = []) || s.isLoading)
        = false := by
      simp [h3, h4]
    constructor
    · simp [sendMessage, h1, h2, hg, newChat, objGet_objSet]
    · simp only [sendMessage, h1, h2, hg, Bool.false_eq_true, if_false]
      exact ⟨_, rfl, rfl⟩

/-- Witness for C8: the three amended behaviors at concrete inputs. -/
theorem chat_session_management_witness :
    (deleteConversation
        { conversations :=
            [("conv-1".toList,
              { id := "conv-1".toList, title := "New Chat".toList,
                messages := [], createdAt := 1, updatedAt := 1 })],
          currentConversationId := some ("conv-1".toList),
          isLoading := false, userInput := [] }
        ("conv-1".toList)).currentConversationId = none
  ∧ sendMessage noSessionState 3 (.error ()) = (noSessionState, none)
  ∧ (sendMessage
        { conversations := [],
          currentConversationId := some ("conv-9".toList),
          isLoading := false, userInput := "hey".toList }
        9 (.ok ("a".toList))).2 ≠ none := by
  refine ⟨?_, ?_, ?_⟩
  · exact (chat_session_management.1 _ ("conv-1".toList) _ rfl rfl).2
  · exact chat_session_management.2.1 noSessionState 3 (.error ()) rfl
  · rcases (chat_session_management.2.2
        { conversations := [],
          currentConversationId := some ("conv-9".toList),
          isLoading := false, userInput := "hey".toList }
        ("conv-9".toList) 9 (.ok ("a".toList)) rfl rfl (by decide)
        rfl).2 with ⟨req, hreq, -⟩
    rw [hreq]
    exact Option.some_ne_none req

/-! ### Claim C9 -/

/-- Claim C9 counterexample: a stored value that is not valid JSON makes
the unprotected `JSON.parse` call raise, and `loadConversations`
propagates the exception instead of degrading to the empty collection. -/
theorem loadConversations_throws_cex :
    loadConversations (some ("\x7b".toList))
      = .error ("SyntaxError".toList) := rfl

/-- Claim C9 (amended): `loadConversations` tolerates an absent key and an
empty stored string (the default empty collection is kept) and accepts
valid JSON, but a corrupted (non-JSON) stored string raises — the
`JSON.parse` exception escapes `loadConversations` uncaught. -/
theorem loadConversations_behavior :
    loadConversations none = .ok none
  ∧ loadConversations (some []) = .ok none
  ∧ loadConversations (some ("\x7b\x7d".toList))
      = .ok (some (JsonValue.jobj []))
  ∧ loadConversations (some ("not json".toList))
      = .error ("SyntaxError".toList) := by
  exact ⟨rfl, rfl, rfl, rfl⟩

/-! ### Claim C10 -/

theorem joinSep_append_single (sep y : List Char)
    (xs : List (List Char)) (h : xs ≠ []) :
    joinSep sep (xs ++ [y]) = joinSep sep xs ++ sep ++ y := by
  induction xs with
  | nil => exact absurd rfl h
  | cons a t ih =>
    cases t with
    | nil => simp [joinSep]
    | cons b u =>
      have ih' := ih (by simp)
      simp only [List.cons_append, List.append_eq, joinSep] at ih' ⊢
      rw [ih']
      simp [List.append_assoc]

theorem fullQuestionOf_append (ms : List ChatMessage) (m : List Char)
    (ts : Nat) (h : ms ≠ []) :
    fullQuestionOf
        (ms ++ [{ role := .user, content := m, isError := false,
                  createdAt := ts }]) m
      = "Conversation so far:\n\n".toList ++
        joinSep ("\n\n".toList) (ms.map fmtMessage) ++
        "\n\nUser: ".toList ++ m ++ "\n\nUser: ".toList ++ m := by
  have hne : ms.map fmtMessage ≠ [] := by simp [h]
  have hlit : ∀ x : List Char,
      "\n\n".toList ++ ("User".toList ++ (": ".toList ++ x))
        = "\n\nUser: ".toList ++ x := fun x => rfl
  unfold fullQuestionOf
  rw [List.map_append]
  simp only [List.map_cons, List.map_nil]
  rw [joinSep_append_single _ _ _ hne]
  simp only [fmtMessage, List.append_assoc]
  rw [hlit]

/-- Claim C10: whenever `sendMessage` runs on a stored conversation with
prior messages, the posted question contains the newest user message
twice — the serialized transcript already ends with it, and the template
appends one more trailing `User:` line with the same message. -/
theorem sendMessage_duplicated_user_line (s : ChatState) (cid : List Char)
    (conv : Conversation) (now : Nat) (r : Except Unit (List Char))
    (h1 : s.currentConversationId = some cid)
    (h2 : objGet s.conversations cid = some conv)
    (h3 : conv.messages ≠ [])
    (h4 : trimChars s.userInput ≠ [])
    (h5 : s.isLoading = false) :
    (sendMessage s now r).2 = some
      { question := "Conversation so far:\n\n".toList ++
          joinSep ("\n\n".toList) (conv.messages.map fmtMessage) ++
          "\n\nUser: ".toList ++ trimChars s.userInput ++
          "\n\nUser: ".toList ++ trimChars s.userInput,
        conversation_id := cid } := by
  have hlen : ¬((conv.messages ++
      [({ role := .user, content := trimChars s.userInput,
          isError := false, createdAt := now } : ChatMessage)]).length
        = 1) := by
    simp [h3]
  have hg : (decide (trimChars s.userInput = []) || s.isLoading)
      = false := by
    simp [h4, h5]
  simp only [sendMessage, h1, h2, hg, Bool.false_eq_true, if_false]
  simp only [hlen, if_false]
  rw [fullQuestionOf_append _ _ _ h3]

/-- A stored conversation holding one prior exchange opener. -/
def priorConv : Conversation :=
  { id := "conv-1".toList, title := "first".toList,
    messages := [{ role := .user, content := "first".toList,
                   isError := false, createdAt := 1 }],
    createdAt := 1, updatedAt := 1 }

/-- Witness for C10 on a concrete session: the posted question ends with
the new message `second` twice. -/
theorem sendMessage_duplicated_user_line_witness :
    (sendMessage
        { conversations := [("conv-1".toList, priorConv)],
          currentConversationId := some ("conv-1".toList),
          isLoading := false, userInput := "second".toList }
        5 (.ok ("ok".toList))).2 = some
      { question := "Conversation so far:\n\n".toList ++
          joinSep ("\n\n".toList) (priorConv.messages.map fmtMessage) ++
          "\n\nUser: ".toList ++ "second".toList ++
          "\n\nUser: ".toList ++ "second".toList,
        conversation_id := "conv-1".toList } :=
  sendMessage_duplicated_user_line
    { conversations := [("conv-1".toList, priorConv)],
      currentConversationId := some ("conv-1".toList),
      isLoading := false, userInput := "second".toList }
    ("conv-1".toList) priorConv 5 (.ok ("ok".toList))
    rfl rfl (by decide) (by decide) rfl

end DevopsFlow
